import Mathlib

/-!
Shallow embedding of the employee-database tool layer (src/main.py):
the connection provider `get_db_connection` and the three tool
operations `list_employees`, `get_employee_by_id`, `add_employee`.

The relational store is modelled as a list of rows plus a generator for
the next id.  Failure of the external world (store unreachable, statement
execution failure, commit failure) is modelled by Boolean oracles in a
`World` record, and Python exceptions by the `Exn` type; the top-level
`try/except Exception` of each operation is the `Except`-to-`Outcome`
wrapper.  Resource discipline is tracked by counting connections opened
and closed during the invocation.
-/

namespace CompanyDB

/-- One row of the `employees` table: the five caller-visible columns
plus the store-generated `id`. -/
structure Employee where
  id : Nat
  name : String
  position : String
  department : String
  salary : Rat
  hire_date : Nat
deriving Repr, DecidableEq

/-- Persisted state of the store: the rows of `employees` and the next
generated id. -/
structure DBState where
  rows : List Employee
  nextId : Nat
deriving Repr, DecidableEq

/-- The environment of one invocation: the persisted state, oracles for
whether connection acquisition, statement execution and commit succeed,
the current server clock, and the message each underlying failure
carries. -/
structure World where
  db : DBState
  connectOk : Bool
  execOk : Bool
  commitOk : Bool
  now : Nat
  connMsg : String
  execMsg : String
  commitMsg : String
deriving Repr, DecidableEq

/-- Python exceptions that can arise inside an operation body: connection
failure, execution/commit failure, `AttributeError` from calling `.strip()`
on `None`, `TypeError` from comparing `None` with a number.  All are
subclasses of `Exception` in the source, hence caught by its handlers. -/
inductive Exn where
  | connError (msg : String)
  | execError (msg : String)
  | attrError (msg : String)
  | typeError (msg : String)
deriving Repr, DecidableEq

/-- Python `str(e)`. -/
def Exn.str : Exn → String
  | .connError m => m
  | .execError m => m
  | .attrError m => m
  | .typeError m => m

/-- The structured values an operation can hand back to the dispatcher:
a list of rows (`list_employees` success), an optional row
(`get_employee_by_id` success), the add-success envelope with message and
inserted row, or the uniform error envelope with its message. -/
inductive Response where
  | rows (es : List Employee)
  | one (e : Option Employee)
  | added (message : String) (employee : Employee)
  | error (msg : String)
deriving Repr, DecidableEq

/-- What the dispatcher observes: a returned value, or a propagated
(uncaught) language-level exception. -/
inductive Outcome where
  | value (r : Response)
  | raised (e : Exn)
deriving Repr, DecidableEq

/-- Effects of one invocation: final persisted state and the number of
connections opened and closed before the operation returned. -/
structure Eff where
  db : DBState
  opened : Nat
  closed : Nat
deriving Repr, DecidableEq

/-- A value bound to a parameterized statement, separate from its text. -/
inductive Param where
  | int (i : Int)
  | str (s : String)
  | rat (q : Rat)
  | time (t : Nat)
deriving Repr, DecidableEq

/-- A parameterized statement: constant text with placeholders, plus the
bound parameters passed separately. -/
structure Statement where
  text : String
  params : List Param
deriving Repr, DecidableEq

/-- Ordering used by `ORDER BY hire_date DESC`: `a` before `b` when the
hire date of `a` is at least that of `b`. -/
def hireDesc (a b : Employee) : Prop := b.hire_date ≤ a.hire_date

instance : DecidableRel hireDesc :=
  fun a b => inferInstanceAs (Decidable (b.hire_date ≤ a.hire_date))

instance : IsTotal Employee hireDesc :=
  ⟨fun a b => Nat.le_total b.hire_date a.hire_date⟩

instance : IsTrans Employee hireDesc :=
  ⟨fun _ _ _ hab hbc => Nat.le_trans hbc hab⟩

/-- Characters stripped by Python `str.strip()` with no argument: ASCII
whitespace. -/
def pySpace (c : Char) : Bool :=
  c == ' ' || c == '\t' || c == '\n' || c == '\r' || c == '\x0b' || c == '\x0c'

/-- Python `str.strip()`: remove leading and trailing whitespace. -/
def pyStrip (s : String) : String :=
  ⟨((s.data.dropWhile pySpace).reverse.dropWhile pySpace).reverse⟩

/-- Store semantics of the SELECT of `list_employees`: all rows ordered
by hire date descending, cut to `limit` rows.  Per the spec, a
nonpositive bound yields an empty result (typical SQL LIMIT behavior of
the external store); `Int.toNat` realises exactly that. -/
def selectRecent (db : DBState) (limit : Int) : List Employee :=
  (List.insertionSort hireDesc db.rows).take limit.toNat

/-- Store semantics of the SELECT of `get_employee_by_id`: the row whose
id equals the bound parameter, if any. -/
def selectById (db : DBState) (eid : Int) : Option Employee :=
  db.rows.find? (fun r => (r.id : Int) == eid)

/-- `psycopg2.connect(...)`: succeeds when the store is reachable,
otherwise raises an operational error carrying the underlying cause. -/
def get_db_connection (w : World) : Except Exn Unit :=
  if w.connectOk then .ok () else .error (.connError w.connMsg)

/-- Text and bound parameters of the SELECT in `list_employees`
(src/main.py lines 41-45): `limit` is a bound parameter, never
concatenated into the text. -/
def list_employees_stmt (limit : Int) : Statement :=
  { text := "SELECT id, name, position, department, salary, hire_date FROM employees ORDER BY hire_date DESC LIMIT %s;",
    params := [Param.int limit] }

/-- Body of `list_employees` (the code inside `try`, src/main.py
lines 38-48): acquire a connection, execute the SELECT, fetch all rows,
close the connection, return the rows.  If execution fails, the `with`
block re-raises before `conn.close()` runs, so the connection stays
open. -/
def list_employees_run (w : World) (limit : Int) : Eff × Except Exn Response :=
  match get_db_connection w with
  | .error ex => (⟨w.db, 0, 0⟩, .error ex)
  | .ok _ =>
    if w.execOk then
      (⟨w.db, 1, 1⟩, .ok (.rows (selectRecent w.db limit)))
    else
      (⟨w.db, 1, 0⟩, .error (.execError w.execMsg))

/-- `list_employees` (src/main.py lines 29-50): the body wrapped in
`try/except Exception`, which converts any raised exception into the
error envelope of line 50. -/
def list_employees (w : World) (limit : Int) : Eff × Outcome :=
  match list_employees_run w limit with
  | (eff, .ok r) => (eff, .value r)
  | (eff, .error ex) =>
      (eff, .value (.error ("It was not possible to hire employees: " ++ ex.str)))

/-- Text and bound parameters of the SELECT in `get_employee_by_id`
(src/main.py lines 65-68). -/
def get_employee_by_id_stmt (eid : Int) : Statement :=
  { text := "SELECT id, name, position, department, salary, hire_date FROM employees WHERE id = %s;",
    params := [Param.int eid] }

/-- Body of `get_employee_by_id` (src/main.py lines 62-71): acquire a
connection, execute the SELECT with `employee_id` bound, fetch one row
(or `None`), close the connection. -/
def get_employee_by_id_run (w : World) (eid : Int) : Eff × Except Exn Response :=
  match get_db_connection w with
  | .error ex => (⟨w.db, 0, 0⟩, .error ex)
  | .ok _ =>
    if w.execOk then
      (⟨w.db, 1, 1⟩, .ok (.one (selectById w.db eid)))
    else
      (⟨w.db, 1, 0⟩, .error (.execError w.execMsg))

/-- `get_employee_by_id` (src/main.py lines 53-73): body wrapped in
`try/except Exception` with the envelope of line 73. -/
def get_employee_by_id (w : World) (eid : Int) : Eff × Outcome :=
  match get_employee_by_id_run w eid with
  | (eff, .ok r) => (eff, .value r)
  | (eff, .error ex) =>
      (eff, .value (.error ("Could not retrieve employee: " ++ ex.str)))

/-- Text and bound parameters of the INSERT in `add_employee`
(src/main.py lines 100-104): the four caller arguments plus the current
server clock for `hire_date`, returning the inserted row in the same
statement. -/
def add_employee_stmt (name position department : String) (salary : Rat)
    (now : Nat) : Statement :=
  { text := "INSERT INTO employees (name, position, department, salary, hire_date) VALUES (%s, %s, %s, %s, %s) RETURNING id, name, position, department, salary, hire_date;",
    params := [Param.str name, Param.str position, Param.str department,
               Param.rat salary, Param.time now] }

/-- Store semantics of the INSERT ... RETURNING: a new row with the
generated id, the four supplied values and `now` as hire date, appended
to the table. -/
def insertEmployee (db : DBState) (name position department : String)
    (salary : Rat) (now : Nat) : Employee × DBState :=
  let row : Employee := ⟨db.nextId, name, position, department, salary, now⟩
  (row, ⟨db.rows ++ [row], db.nextId + 1⟩)

/-- Body of `add_employee` (src/main.py lines 88-111).  Arguments are
Python values: `none` models Python `None`.  `name.strip()` raises
`AttributeError` on `None`; `salary <= 0` raises `TypeError` on `None`.
Validation runs in order name, position, department, salary, each
failure returning (not raising) an error envelope.  On passing
validation: connect, execute the INSERT ... RETURNING, fetch the row,
commit, close, return the success envelope.  If execution or commit
raises, the `with` block re-raises before `conn.close()`, leaving the
connection open and the table unchanged (the engine rolls back the
uncommitted insert). -/
def add_employee_run (w : World) (name position department : Option String)
    (salary : Option Rat) : Eff × Except Exn Response :=
  let e0 : Eff := ⟨w.db, 0, 0⟩
  match name with
  | none => (e0, .error (.attrError "NoneType object has no attribute strip"))
  | some n =>
  if pyStrip n = "" then (e0, .ok (.error "Employee name cannot be empty.")) else
  match position with
  | none => (e0, .error (.attrError "NoneType object has no attribute strip"))
  | some p =>
  if pyStrip p = "" then (e0, .ok (.error "Employee position cannot be empty.")) else
  match department with
  | none => (e0, .error (.attrError "NoneType object has no attribute strip"))
  | some d =>
  if pyStrip d = "" then (e0, .ok (.error "Employee department cannot be empty.")) else
  match salary with
  | none => (e0, .error (.typeError "unsupported comparison between NoneType and int"))
  | some q =>
  if q ≤ 0 then (e0, .ok (.error "Employee salary must be a positive number.")) else
  match get_db_connection w with
  | .error ex => (e0, .error ex)
  | .ok _ =>
  if w.execOk then
    let rdb := insertEmployee w.db n p d q w.now
    if w.commitOk then
      (⟨rdb.2, 1, 1⟩, .ok (.added "Employee added successfully." rdb.1))
    else
      (⟨w.db, 1, 0⟩, .error (.execError w.commitMsg))
  else
    (⟨w.db, 1, 0⟩, .error (.execError w.execMsg))

/-- `add_employee` (src/main.py lines 76-113): body wrapped in
`try/except Exception` with the envelope of line 113. -/
def add_employee (w : World) (name position department : Option String)
    (salary : Option Rat) : Eff × Outcome :=
  match add_employee_run w name position department salary with
  | (eff, .ok r) => (eff, .value r)
  | (eff, .error ex) =>
      (eff, .value (.error ("Could not add employee: " ++ ex.str)))

/-- The four specific validation messages of src/main.py lines 89-96. -/
def validationMessages : List String :=
  ["Employee name cannot be empty.", "Employee position cannot be empty.",
   "Employee department cannot be empty.", "Employee salary must be a positive number."]

/-- A concrete healthy world with two rows, for witnesses. -/
def w0 : World :=
  { db := { rows := [⟨1, "Alice", "Dev", "RD", 1000, 10⟩, ⟨2, "Bob", "Ops", "IT", 900, 20⟩],
            nextId := 3 },
    connectOk := true, execOk := true, commitOk := true, now := 42,
    connMsg := "connection refused", execMsg := "query failed",
    commitMsg := "commit failed" }

/-- A world where the store is reachable but statement execution fails. -/
def wExecFail : World := { w0 with execOk := false }

end CompanyDB

namespace CompanyDB

/-- On every path of `list_employees` the persisted state is unchanged. -/
theorem list_employees_db_unchanged (w : World) (limit : Int) :
    (list_employees w limit).1.db = w.db := by
  unfold list_employees list_employees_run get_db_connection
  by_cases hc : w.connectOk <;> by_cases he : w.execOk <;> simp [hc, he]

/-- On every path of `get_employee_by_id` the persisted state is
unchanged. -/
theorem get_employee_by_id_db_unchanged (w : World) (eid : Int) :
    (get_employee_by_id w eid).1.db = w.db := by
  unfold get_employee_by_id get_employee_by_id_run get_db_connection
  by_cases hc : w.connectOk <;> by_cases he : w.execOk <;> simp [hc, he]

/-- C1: for every environment (including unreachable store and failing
execution) and every argument (including `None` arguments that make the
validation checks raise), each of the three operations hands the
dispatcher a returned value — a structured success or an error
envelope — never a propagated language-level exception. -/
theorem C1_no_exception_propagates (w : World) (limit eid : Int)
    (name position department : Option String) (salary : Option Rat) :
    (∃ r, (list_employees w limit).2 = Outcome.value r) ∧
    (∃ r, (get_employee_by_id w eid).2 = Outcome.value r) ∧
    (∃ r, (add_employee w name position department salary).2 = Outcome.value r) := by
  refine ⟨?_, ?_, ?_⟩
  · unfold list_employees
    rcases list_employees_run w limit with ⟨eff, r | ex⟩ <;> exact ⟨_, rfl⟩
  · unfold get_employee_by_id
    rcases get_employee_by_id_run w eid with ⟨eff, r | ex⟩ <;> exact ⟨_, rfl⟩
  · unfold add_employee
    rcases add_employee_run w name position department salary with ⟨eff, r | ex⟩ <;>
      exact ⟨_, rfl⟩

/-- C2 counterexample: with an empty name, `add_employee` does not
return the envelope with message "name cannot be empty." claimed by the
spec; it returns "Employee name cannot be empty.". -/
theorem C2_counterexample :
    (add_employee w0 (some "") (some "Engineer") (some "RD") (some 100)).2
      ≠ Outcome.value (Response.error "name cannot be empty.") ∧
    (add_employee w0 (some "") (some "Engineer") (some "RD") (some 100)).2
      = Outcome.value (Response.error "Employee name cannot be empty.") := by
  decide

/-- C2 amended: `add_employee` checks name, position, department, salary
in that order, the first failure wins, and each failure returns a
distinct error envelope — with the messages "Employee name cannot be
empty.", "Employee position cannot be empty.", "Employee department
cannot be empty.", "Employee salary must be a positive number.", without
touching the store. -/
theorem C2_validation_order_amended (w : World) (n p d : String) (q : Rat) :
    (pyStrip n = "" →
      add_employee w (some n) (some p) (some d) (some q)
        = (⟨w.db, 0, 0⟩, Outcome.value (Response.error "Employee name cannot be empty."))) ∧
    (pyStrip n ≠ "" → pyStrip p = "" →
      add_employee w (some n) (some p) (some d) (some q)
        = (⟨w.db, 0, 0⟩, Outcome.value (Response.error "Employee position cannot be empty."))) ∧
    (pyStrip n ≠ "" → pyStrip p ≠ "" → pyStrip d = "" →
      add_employee w (some n) (some p) (some d) (some q)
        = (⟨w.db, 0, 0⟩, Outcome.value (Response.error "Employee department cannot be empty."))) ∧
    (pyStrip n ≠ "" → pyStrip p ≠ "" → pyStrip d ≠ "" → q ≤ 0 →
      add_employee w (some n) (some p) (some d) (some q)
        = (⟨w.db, 0, 0⟩, Outcome.value (Response.error "Employee salary must be a positive number."))) := by
  refine ⟨fun h1 => ?_, fun h1 h2 => ?_, fun h1 h2 h3 => ?_, fun h1 h2 h3 h4 => ?_⟩ <;>
    simp [add_employee, add_employee_run, *]

/-- C2 witness: each of the four validation failures at a concrete
input, in order. -/
theorem C2_validation_order_amended_witness :
    add_employee w0 (some " ") (some "E") (some "R") (some 100)
      = (⟨w0.db, 0, 0⟩, Outcome.value (Response.error "Employee name cannot be empty.")) ∧
    add_employee w0 (some "A") (some " ") (some "R") (some 100)
      = (⟨w0.db, 0, 0⟩, Outcome.value (Response.error "Employee position cannot be empty.")) ∧
    add_employee w0 (some "A") (some "E") (some " ") (some 100)
      = (⟨w0.db, 0, 0⟩, Outcome.value (Response.error "Employee department cannot be empty.")) ∧
    add_employee w0 (some "A") (some "E") (some "R") (some 0)
      = (⟨w0.db, 0, 0⟩, Outcome.value (Response.error "Employee salary must be a positive number.")) :=
  ⟨(C2_validation_order_amended w0 " " "E" "R" 100).1 (by decide),
   (C2_validation_order_amended w0 "A" " " "R" 100).2.1 (by decide) (by decide),
   (C2_validation_order_amended w0 "A" "E" " " 100).2.2.1 (by decide) (by decide) (by decide),
   (C2_validation_order_amended w0 "A" "E" "R" 0).2.2.2 (by decide) (by decide) (by decide) (by decide)⟩

/-- C4: with a reachable store but a failing SELECT execution,
`list_employees` returns the error envelope but the acquired connection
is never closed — `conn.close()` on line 47 is skipped when the `with`
block re-raises, so the release-on-every-path discipline claimed by the
spec does not hold in the source. -/
theorem C4_connection_leaked_on_execution_failure :
    (list_employees wExecFail 5).1.opened = 1 ∧
    (list_employees wExecFail 5).1.closed = 0 ∧
    (list_employees wExecFail 5).2
      = Outcome.value (Response.error "It was not possible to hire employees: query failed") := by
  decide

end CompanyDB

namespace CompanyDB

/-- C3: when validation passes and connection, execution and commit all
succeed, `add_employee` appends exactly one committed row — carrying the
four supplied values, the generated id and the server clock — returns
the success envelope holding that same row, and the connection is
closed; and the two read operations never change the persisted state on
any path, so `add_employee` is the only mutating operation. -/
theorem C3_single_committed_insert (w : World) (n p d : String) (q : Rat)
    (limit eid : Int)
    (hn : pyStrip n ≠ "") (hp : pyStrip p ≠ "") (hd : pyStrip d ≠ "")
    (hq : 0 < q) (hc : w.connectOk = true) (he : w.execOk = true)
    (hm : w.commitOk = true) :
    add_employee w (some n) (some p) (some d) (some q)
      = (⟨⟨w.db.rows ++ [⟨w.db.nextId, n, p, d, q, w.now⟩], w.db.nextId + 1⟩, 1, 1⟩,
         Outcome.value (Response.added "Employee added successfully."
           ⟨w.db.nextId, n, p, d, q, w.now⟩)) ∧
    (list_employees w limit).1.db = w.db ∧
    (get_employee_by_id w eid).1.db = w.db := by
  refine ⟨?_, list_employees_db_unchanged w limit, get_employee_by_id_db_unchanged w eid⟩
  simp [add_employee, add_employee_run, get_db_connection, insertEmployee,
        hn, hp, hd, not_le.mpr hq, hc, he, hm]

/-- C3 witness: a concrete successful insert into the two-row store. -/
theorem C3_single_committed_insert_witness :
    add_employee w0 (some "Ada") (some "Engineer") (some "RD") (some 100)
      = (⟨⟨w0.db.rows ++ [⟨3, "Ada", "Engineer", "RD", 100, 42⟩], 4⟩, 1, 1⟩,
         Outcome.value (Response.added "Employee added successfully."
           ⟨3, "Ada", "Engineer", "RD", 100, 42⟩)) ∧
    (list_employees w0 5).1.db = w0.db ∧
    (get_employee_by_id w0 1).1.db = w0.db :=
  C3_single_committed_insert w0 "Ada" "Engineer" "RD" 100 5 1
    (by decide) (by decide) (by decide) (by decide) rfl rfl rfl

/-- C5: for every nonnegative limit, a successful `list_employees`
returns rows of the store (each a full six-column record), at most
`limit` of them, sorted by hire date descending, and the limit is passed
as a bound parameter of a statement whose text does not depend on it. -/
theorem C5_list_limit_sorted_bound (w : World) (limit : Int)
    (hl : 0 ≤ limit) (hc : w.connectOk = true) (he : w.execOk = true) :
    ∃ es : List Employee,
      (list_employees w limit).2 = Outcome.value (Response.rows es) ∧
      (es.length : Int) ≤ limit ∧
      List.Sorted hireDesc es ∧
      (∀ r ∈ es, r ∈ w.db.rows) ∧
      (list_employees_stmt limit).params = [Param.int limit] ∧
      ∀ l2 : Int, (list_employees_stmt limit).text = (list_employees_stmt l2).text := by
  refine ⟨selectRecent w.db limit, ?_, ?_, ?_, ?_, rfl, fun l2 => rfl⟩
  · unfold list_employees list_employees_run get_db_connection
    simp [hc, he]
  · have h1 : (selectRecent w.db limit).length ≤ limit.toNat := by
      simp [selectRecent, List.length_take]
    calc ((selectRecent w.db limit).length : Int) ≤ (limit.toNat : Int) := by
          exact_mod_cast h1
      _ = limit := Int.toNat_of_nonneg hl
  · exact List.Pairwise.sublist (List.take_sublist _ _)
      (List.sorted_insertionSort hireDesc w.db.rows)
  · intro r hr
    exact (List.perm_insertionSort hireDesc w.db.rows).mem_iff.mp
      (List.mem_of_mem_take hr)

/-- C5 witness: listing two of the two rows of the concrete store. -/
theorem C5_list_limit_sorted_bound_witness :
    ∃ es : List Employee,
      (list_employees w0 2).2 = Outcome.value (Response.rows es) ∧
      (es.length : Int) ≤ 2 ∧
      List.Sorted hireDesc es ∧
      (∀ r ∈ es, r ∈ w0.db.rows) ∧
      (list_employees_stmt 2).params = [Param.int 2] ∧
      ∀ l2 : Int, (list_employees_stmt 2).text = (list_employees_stmt l2).text :=
  C5_list_limit_sorted_bound w0 2 (by decide) rfl rfl

/-- C6: when no row matches the requested id, a successful
`get_employee_by_id` returns the absence value `None` as a non-error
outcome, and the id — unvalidated, negative or zero included — is passed
through as the bound parameter of the statement. -/
theorem C6_absent_id_returns_none (w : World) (eid : Int)
    (hc : w.connectOk = true) (he : w.execOk = true)
    (habs : ∀ r ∈ w.db.rows, (r.id : Int) ≠ eid) :
    (get_employee_by_id w eid).2 = Outcome.value (Response.one none) ∧
    (get_employee_by_id_stmt eid).params = [Param.int eid] := by
  refine ⟨?_, rfl⟩
  unfold get_employee_by_id get_employee_by_id_run get_db_connection selectById
  simp [hc, he, List.find?_eq_none]
  intro r hr
  simpa using habs r hr

/-- C6 witness: the concrete store has no row with id -3. -/
theorem C6_absent_id_returns_none_witness :
    (get_employee_by_id w0 (-3)).2 = Outcome.value (Response.one none) ∧
    (get_employee_by_id_stmt (-3)).params = [Param.int (-3)] :=
  C6_absent_id_returns_none w0 (-3) rfl rfl (by decide)

/-- C7: whenever one of the three strings is blank after stripping or
the salary is nonpositive, `add_employee` returns one of the specific
validation envelopes with the store untouched: no connection is opened
and the persisted state is exactly the initial one. -/
theorem C7_validation_failure_no_store_access (w : World) (n p d : String)
    (q : Rat)
    (h : pyStrip n = "" ∨ pyStrip p = "" ∨ pyStrip d = "" ∨ q ≤ 0) :
    ∃ m, add_employee w (some n) (some p) (some d) (some q)
        = (⟨w.db, 0, 0⟩, Outcome.value (Response.error m)) ∧
      m ∈ validationMessages := by
  by_cases h1 : pyStrip n = ""
  · exact ⟨"Employee name cannot be empty.",
      by simp [add_employee, add_employee_run, h1], by decide⟩
  by_cases h2 : pyStrip p = ""
  · exact ⟨"Employee position cannot be empty.",
      by simp [add_employee, add_employee_run, h1, h2], by decide⟩
  by_cases h3 : pyStrip d = ""
  · exact ⟨"Employee department cannot be empty.",
      by simp [add_employee, add_employee_run, h1, h2, h3], by decide⟩
  have h4 : q ≤ 0 := by tauto
  exact ⟨"Employee salary must be a positive number.",
    by simp [add_employee, add_employee_run, h1, h2, h3, h4], by decide⟩

/-- C7 witness: a whitespace-only department at a concrete input. -/
theorem C7_validation_failure_no_store_access_witness :
    ∃ m, add_employee w0 (some "Ada") (some "Engineer") (some "  ") (some 100)
        = (⟨w0.db, 0, 0⟩, Outcome.value (Response.error m)) ∧
      m ∈ validationMessages :=
  C7_validation_failure_no_store_access w0 "Ada" "Engineer" "  " 100
    (Or.inr (Or.inr (Or.inl (by decide))))

/-- C8: on a successful `add_employee`, the inserted row's hire date is
the server clock, set exactly once at insert time — the row is appended
with `hire_date = now` while all pre-existing rows are untouched — and
the insert statement binds exactly the four caller values plus the
clock, so `hire_date` is never caller-supplied. -/
theorem C8_hire_date_server_clock (w : World) (n p d : String) (q : Rat)
    (hn : pyStrip n ≠ "") (hp : pyStrip p ≠ "") (hd : pyStrip d ≠ "")
    (hq : 0 < q) (hc : w.connectOk = true) (he : w.execOk = true)
    (hm : w.commitOk = true) :
    ∃ row : Employee,
      (add_employee w (some n) (some p) (some d) (some q)).2
        = Outcome.value (Response.added "Employee added successfully." row) ∧
      row.hire_date = w.now ∧
      (add_employee w (some n) (some p) (some d) (some q)).1.db.rows
        = w.db.rows ++ [row] ∧
      (add_employee_stmt n p d q w.now).params
        = [Param.str n, Param.str p, Param.str d, Param.rat q, Param.time w.now] := by
  refine ⟨⟨w.db.nextId, n, p, d, q, w.now⟩, ?_, rfl, ?_, rfl⟩ <;>
    simp [add_employee, add_employee_run, get_db_connection, insertEmployee,
          hn, hp, hd, not_le.mpr hq, hc, he, hm]

/-- C8 witness: the concrete insert carries hire date 42, the clock of
the concrete world. -/
theorem C8_hire_date_server_clock_witness :
    ∃ row : Employee,
      (add_employee w0 (some "Ada") (some "Engineer") (some "RD") (some 100)).2
        = Outcome.value (Response.added "Employee added successfully." row) ∧
      row.hire_date = w0.now ∧
      (add_employee w0 (some "Ada") (some "Engineer") (some "RD") (some 100)).1.db.rows
        = w0.db.rows ++ [row] ∧
      (add_employee_stmt "Ada" "Engineer" "RD" 100 w0.now).params
        = [Param.str "Ada", Param.str "Engineer", Param.str "RD",
           Param.rat 100, Param.time w0.now] :=
  C8_hire_date_server_clock w0 "Ada" "Engineer" "RD" 100
    (by decide) (by decide) (by decide) (by decide) rfl rfl rfl

/-- C9: `limit` is never validated client-side — it is bound unchanged
as the statement parameter — and for every nonpositive limit a
successful `list_employees` returns the empty row list, per the store's
LIMIT semantics. -/
theorem C9_nonpositive_limit_empty (w : World) (limit : Int)
    (hl : limit ≤ 0) (hc : w.connectOk = true) (he : w.execOk = true) :
    (list_employees w limit).2 = Outcome.value (Response.rows []) ∧
    (list_employees_stmt limit).params = [Param.int limit] := by
  refine ⟨?_, rfl⟩
  unfold list_employees list_employees_run get_db_connection selectRecent
  simp [hc, he, Int.toNat_eq_zero.mpr hl]

/-- C9 witness: listing zero rows of the concrete two-row store. -/
theorem C9_nonpositive_limit_empty_witness :
    (list_employees w0 0).2 = Outcome.value (Response.rows []) ∧
    (list_employees_stmt 0).params = [Param.int 0] :=
  C9_nonpositive_limit_empty w0 0 (by decide) rfl rfl

/-- C10: when a validation check itself raises — a `None` string makes
`.strip()` raise `AttributeError`, or a `None` salary makes the
comparison with 0 raise `TypeError` — `add_employee` still returns an
error envelope, but the generic catch-all one prefixed "Could not add
employee: ", which is none of the four specific validation messages, and
no connection is opened and the store is unchanged. -/
theorem C10_validation_exception_generic_envelope (w : World)
    (n p d : String) :
    (∀ (p0 d0 : Option String) (s0 : Option Rat),
      add_employee w none p0 d0 s0
        = (⟨w.db, 0, 0⟩, Outcome.value (Response.error
            "Could not add employee: NoneType object has no attribute strip"))) ∧
    (pyStrip n ≠ "" → ∀ (d0 : Option String) (s0 : Option Rat),
      add_employee w (some n) none d0 s0
        = (⟨w.db, 0, 0⟩, Outcome.value (Response.error
            "Could not add employee: NoneType object has no attribute strip"))) ∧
    (pyStrip n ≠ "" → pyStrip p ≠ "" → ∀ s0 : Option Rat,
      add_employee w (some n) (some p) none s0
        = (⟨w.db, 0, 0⟩, Outcome.value (Response.error
            "Could not add employee: NoneType object has no attribute strip"))) ∧
    (pyStrip n ≠ "" → pyStrip p ≠ "" → pyStrip d ≠ "" →
      add_employee w (some n) (some p) (some d) none
        = (⟨w.db, 0, 0⟩, Outcome.value (Response.error
            "Could not add employee: unsupported comparison between NoneType and int"))) ∧
    (∀ m ∈ validationMessages,
      "Could not add employee: NoneType object has no attribute strip" ≠ m ∧
      "Could not add employee: unsupported comparison between NoneType and int" ≠ m) := by
  refine ⟨fun p0 d0 s0 => ?_, fun h1 d0 s0 => ?_, fun h1 h2 s0 => ?_,
          fun h1 h2 h3 => ?_, by decide⟩ <;>
    simp [add_employee, add_employee_run, Exn.str, *]

/-- C10 witness: a `None` salary after three valid strings yields the
generic catch-all envelope. -/
theorem C10_validation_exception_generic_envelope_witness :
    add_employee w0 (some "Ada") (some "Engineer") (some "RD") none
      = (⟨w0.db, 0, 0⟩, Outcome.value (Response.error
          "Could not add employee: unsupported comparison between NoneType and int")) :=
  (C10_validation_exception_generic_envelope w0 "Ada" "Engineer" "RD").2.2.2.1
    (by decide) (by decide) (by decide)

end CompanyDB
